import Mathlib

/-!
Shallow embedding of the PreViz Blender add-on (src/__init__.py,
src/scene_parser.py, src/cinematographer.py, src/director.py) and proofs
about the claims of its specification.

JSON values returned by the Bria HTTP API are modelled by the inductive
type `Json`; Python `None` and JSON `null` are the same value `Json.null`.
Python dictionaries with string keys are association lists; operations
that can raise a Python exception return `Except Unit`.
-/

inductive Json where
  | null : Json
  | bool (b : Bool) : Json
  | num (n : Int) : Json
  | str (s : String) : Json
  | arr (elems : List Json) : Json
  | obj (fields : List (String × Json)) : Json

abbrev Dict := List (String × Json)

/-- Key lookup in an association list (first match, like a Python dict
whose keys are unique). -/
def lookupKey (fields : Dict) (k : String) : Option Json :=
  match fields with
  | [] => none
  | (k', v) :: rest => if k' = k then some v else lookupKey rest k

/-- Python truth value of a JSON value: `None`, `False`, `0`, `""`, `[]`
and the empty dict are falsy. -/
def jsonTruthy : Json → Bool
  | Json.null => false
  | Json.bool b => b
  | Json.num n => !(n == 0)
  | Json.str s => !(s == "")
  | Json.arr l => !l.isEmpty
  | Json.obj l => !l.isEmpty

/-- Python `key in value` for a string key: dict membership on keys,
list membership (only an equal string element can compare equal to a
string key), substring test on strings; raises `TypeError` on numbers,
booleans and `None`. -/
def pyContains (d : Json) (k : String) : Except Unit Bool :=
  match d with
  | Json.obj fields => Except.ok (fields.any (fun kv => kv.1 == k))
  | Json.arr elems =>
      Except.ok (elems.any (fun e =>
        match e with
        | Json.str s => s == k
        | _ => false))
  | Json.str s => Except.ok (decide (k.data <:+: s.data))
  | _ => Except.error ()

/-- Python `value[key]` for a string key: dict item lookup (raising
`KeyError` when absent); raises `TypeError` on every other shape. -/
def pyIndex (d : Json) (k : String) : Except Unit Json :=
  match d with
  | Json.obj fields =>
      match lookupKey fields k with
      | some v => Except.ok v
      | none => Except.error ()
  | _ => Except.error ()

/-- Python `value[0]`: head of a list (raising `IndexError` when empty),
first character of a string; raises on dicts (`KeyError`), numbers,
booleans and `None` (`TypeError`). -/
def pyIndexZero (d : Json) : Except Unit Json :=
  match d with
  | Json.arr (x :: _) => Except.ok x
  | Json.arr [] => Except.error ()
  | Json.str s =>
      match s.data with
      | [] => Except.error ()
      | c :: _ => Except.ok (Json.str (String.mk [c]))
  | _ => Except.error ()

/-- Python `value.get(key)`: `None` default; raises `AttributeError`
when `value` is not a dict. -/
def pyGet (d : Json) (k : String) : Except Unit Json :=
  match d with
  | Json.obj fields => Except.ok ((lookupKey fields k).getD Json.null)
  | _ => Except.error ()

/-- Python `value.get(key, default)` on a dict (used only where the
receiver is known to be a dict). -/
def pyGetD (fields : Dict) (k : String) (dflt : Json) : Json :=
  (lookupKey fields k).getD dflt

/-- Python `a or b` on JSON values: `a` when truthy, else `b`. -/
def pyOr (a b : Json) : Json :=
  if jsonTruthy a then a else b

/-- Short-circuit Python `and` over two possibly-raising boolean tests. -/
def pyAndM (a : Except Unit Bool) (b : Unit → Except Unit Bool) : Except Unit Bool :=
  match a with
  | Except.error e => Except.error e
  | Except.ok false => Except.ok false
  | Except.ok true => b ()

/-- Python `dict.update` when the argument is a dict: values of existing
keys are replaced in place, new keys are appended in argument order. -/
def dictUpdate (base upd : Dict) : Dict :=
  base.map (fun kv => (kv.1, (lookupKey upd kv.1).getD kv.2)) ++
    upd.filter (fun kv => (lookupKey base kv.1).isNone)

/-- Python `d[k] = v`: replace the value in place when the key exists,
append otherwise. -/
def dictSet (d : Dict) (k : String) (v : Json) : Dict :=
  if (lookupKey d k).isNone then d ++ [(k, v)]
  else d.map (fun kv => if kv.1 = k then (k, v) else kv)

/-- Python `str.lower` (ASCII view; the add-on only compares ASCII
keywords). -/
def pyLower (s : String) : String :=
  String.mk (s.data.map Char.toLower)

/-- Python `needle in haystack` on strings: substring containment. -/
def strContainsSub (haystack needle : String) : Bool :=
  decide (needle.data <:+: haystack.data)

/-- Python `str.endswith`. -/
def pyEndsWith (s sfx : String) : Bool :=
  decide (sfx.data <:+ s.data)

/-- Python `str.strip` is only tested against emptiness in the add-on:
`s.strip()` is falsy exactly when every character is whitespace. -/
def strBlank (s : String) : Bool :=
  s.data.all (fun c => c.isWhitespace)

-- Basic lemmas about the dictionary model.

theorem lookupKey_append (a b : Dict) (k : String) :
    lookupKey (a ++ b) k =
      match lookupKey a k with
      | some v => some v
      | none => lookupKey b k := by
  induction a with
  | nil => simp [lookupKey]
  | cons kv rest ih =>
      obtain ⟨k0, v0⟩ := kv
      by_cases h : k0 = k <;> simp [lookupKey, h, ih]

theorem lookupKey_map_fst (d : Dict) (f : String × Json → Json) (k : String) :
    (lookupKey (d.map (fun kv => (kv.1, f kv))) k).isSome = (lookupKey d k).isSome := by
  induction d with
  | nil => simp [lookupKey]
  | cons kv rest ih =>
      obtain ⟨k0, v0⟩ := kv
      by_cases h : k0 = k <;> simp [lookupKey, h, ih]

theorem lookupKey_map_setter (d : Dict) (k k' : String) (v : Json) :
    (lookupKey (d.map (fun kv => if kv.1 = k then (k, v) else kv)) k').isSome
      = (lookupKey d k').isSome := by
  induction d with
  | nil => simp [lookupKey]
  | cons kv rest ih =>
      obtain ⟨k0, v0⟩ := kv
      simp only [List.map_cons]
      by_cases hx : k0 = k
      · subst hx
        dsimp only
        rw [if_pos rfl]
        by_cases hk : k0 = k' <;> simp [lookupKey, hk, ih]
      · dsimp only
        rw [if_neg hx]
        by_cases hk : k0 = k' <;> simp [lookupKey, hk, ih]

theorem dictUpdate_mem_left (base upd : Dict) (k : String) :
    (lookupKey base k).isSome = true → (lookupKey (dictUpdate base upd) k).isSome = true := by
  intro h
  unfold dictUpdate
  rw [lookupKey_append]
  have hmap := lookupKey_map_fst base (fun kv => (lookupKey upd kv.1).getD kv.2) k
  cases hb : lookupKey (base.map (fun kv => (kv.1, (lookupKey upd kv.1).getD kv.2))) k with
  | some v => simp
  | none =>
      rw [hb] at hmap
      rw [h] at hmap
      simp at hmap

theorem dictSet_mem (d : Dict) (k k' : String) (v : Json) :
    (lookupKey d k').isSome = true → (lookupKey (dictSet d k v) k').isSome = true := by
  intro h
  unfold dictSet
  by_cases hnew : (lookupKey d k).isNone = true
  · simp only [hnew, if_pos]
    rw [lookupKey_append]
    cases hb : lookupKey d k' with
    | some w => simp
    | none => rw [hb] at h; simp at h
  · rw [if_neg (by simpa using hnew)]
    rw [lookupKey_map_setter]
    exact h

/-! ## The status-polling loops of src/cinematographer.py

Three call sites poll a job-status URL: `_make_api_call` (lines 103-133,
ceiling 60), `_poll_for_image_result` (lines 269-301, ceiling 60) and
`_remove_background` (lines 338-363, ceiling 30).  All three share the
shape: `for _ in range(max_retries): time.sleep(1); try: GET, dispatch
on status; except: continue`, modelled by `pollEngine` below over a step
function. -/

/-- Outcome of one poll-loop iteration body. -/
inductive StepR where
  | found (url : Json) : StepR
  | retNull : StepR
  | next : StepR

/-- The sleep-poll loop: at most `fuel` iterations starting at response
index `i`; each iteration sleeps one second, performs the status GET
(`responses i`; `none` means the GET, `raise_for_status` or `.json()`
raised, which the per-iteration `except` turns into a retry) and
dispatches on the parsed body.  Returns the loop value (`none` for the
`return None` and timeout paths) and the number of `time.sleep(1)` calls
performed. -/
def pollEngine (step : Json → StepR) (responses : Nat → Option Json) :
    Nat → Nat → Option Json × Nat
  | _, 0 => (none, 0)
  | i, fuel + 1 =>
      match responses i with
      | none =>
          let r := pollEngine step responses (i + 1) fuel
          (r.1, r.2 + 1)
      | some d =>
          match step d with
          | StepR.found url => (some url, 1)
          | StepR.retNull => (none, 1)
          | StepR.next =>
              let r := pollEngine step responses (i + 1) fuel
              (r.1, r.2 + 1)

/-- Value of the comparison `status_data.get("status") == s`: true only
when the body is a dict whose `"status"` key holds exactly the string
`s` (on a non-dict body `.get` raises `AttributeError`, which the loop
catches, so both status tests come out false there as well). -/
def statusIs (d : Json) (s : String) : Bool :=
  match d with
  | Json.obj fields =>
      match lookupKey fields "status" with
      | some (Json.str s') => s' == s
      | _ => false
  | _ => false

/-- URL extraction of the COMPLETED branch of `_make_api_call`
(src/cinematographer.py lines 114-123): the speculative lookups
`result.image_url`, then `result.urls[0]`, then top-level `image_url`;
`ok none` is the explicit `return None` of line 123, `error` a raised
exception (caught by the loop's `except`, which then retries). -/
def extractUrlMake (d : Json) : Except Unit (Option Json) :=
  match pyAndM (pyContains d "result")
      (fun _ => do pyContains (← pyIndex d "result") "image_url") with
  | Except.error e => Except.error e
  | Except.ok true => do
      let r ← pyIndex d "result"
      let u ← pyIndex r "image_url"
      Except.ok (some u)
  | Except.ok false =>
      match pyAndM (pyContains d "result")
          (fun _ => do pyContains (← pyIndex d "result") "urls") with
      | Except.error e => Except.error e
      | Except.ok true => do
          let r ← pyIndex d "result"
          let us ← pyIndex r "urls"
          let u ← pyIndexZero us
          Except.ok (some u)
      | Except.ok false =>
          match pyContains d "image_url" with
          | Except.error e => Except.error e
          | Except.ok true => do
              let u ← pyIndex d "image_url"
              Except.ok (some u)
          | Except.ok false => Except.ok none

/-- One iteration body of the `_make_api_call` poll loop (lines
112-130): COMPLETED breaks with the extracted URL, or returns None when
no URL was found; an exception during extraction is caught by the
`except` of line 129 and the loop continues; FAILED returns None; any
other status continues. -/
def makeStep (d : Json) : StepR :=
  if statusIs d "COMPLETED" then
    match extractUrlMake d with
    | Except.ok (some url) => StepR.found url
    | Except.ok none => StepR.retNull
    | Except.error _ => StepR.next
  else if statusIs d "FAILED" then StepR.retNull
  else StepR.next

/-- Return value of the COMPLETED branch of `_poll_for_image_result`
(lines 285-291) on the dict body `d`; the returned JSON may be `null`
(Python `None`). -/
def foreExtract (d : Dict) : Except Unit Json :=
  match lookupKey d "result" with
  | some (Json.obj rf) =>
      if jsonTruthy (pyGetD rf "image_url" Json.null) then
        Except.ok (pyGetD rf "image_url" Json.null)
      else if jsonTruthy (pyGetD rf "urls" Json.null) then
        pyIndexZero (pyGetD rf "urls" (Json.arr [Json.null]))
      else Except.ok Json.null
  | some (Json.arr (x :: _)) => Except.ok x
  | _ => Except.ok (pyGetD d "image_url" Json.null)

/-- One iteration body of the `_poll_for_image_result` loop (lines
283-298). -/
def foreStep (d : Json) : StepR :=
  if statusIs d "COMPLETED" then
    match d with
    | Json.obj fields =>
        match foreExtract fields with
        | Except.ok Json.null => StepR.retNull
        | Except.ok v => StepR.found v
        | Except.error _ => StepR.next
    | _ => StepR.next
  else if statusIs d "FAILED" then StepR.retNull
  else StepR.next

/-- Return value of the COMPLETED branch of `_remove_background` (lines
350-353) on the dict body `d`. -/
def rmbgExtract (d : Dict) : Json :=
  match pyGetD d "result" (Json.obj []) with
  | Json.obj rf =>
      pyOr (pyGetD rf "image_url" Json.null) (pyGetD rf "result_url" Json.null)
  | _ => pyOr (pyGetD d "image_url" Json.null) (pyGetD d "result_url" Json.null)

/-- One iteration body of the `_remove_background` loop (lines 342-360). -/
def rmbgStep (d : Json) : StepR :=
  if statusIs d "COMPLETED" then
    match d with
    | Json.obj fields =>
        match rmbgExtract fields with
        | Json.null => StepR.retNull
        | v => StepR.found v
    | _ => StepR.next
  else if statusIs d "FAILED" then StepR.retNull
  else StepR.next

/-- Poll loop of `_make_api_call`: `max_retries = 60` (line 104). -/
def makePoll (responses : Nat → Option Json) : Option Json × Nat :=
  pollEngine makeStep responses 0 60

/-- Poll loop of `_poll_for_image_result`: `max_retries = 60`
(line 275). -/
def forePoll (responses : Nat → Option Json) : Option Json × Nat :=
  pollEngine foreStep responses 0 60

/-- Poll loop of `_remove_background`: `max_retries = 30` (line 341). -/
def rmbgPoll (responses : Nat → Option Json) : Option Json × Nat :=
  pollEngine rmbgStep responses 0 30

/-- Lines 146-153 of `_make_api_call`: the `if not image_url: return
None` falsiness check followed by `_download_image`; `download`
abstracts the network download, returning the temp-file path or `none`
on failure. -/
def finishImage (url : Option Json) (download : Json → Option String) : Option String :=
  match url with
  | none => none
  | some u => if jsonTruthy u then download u else none

/-- Asynchronous branch of `_make_api_call` (lines 99-133 together with
146-153). -/
def makeApiCallAsync (responses : Nat → Option Json)
    (download : Json → Option String) : Option String :=
  finishImage (makePoll responses).1 download

/-- Synchronous branch of `_make_api_call` (lines 134-144): the chain of
speculative lookups on the POST body itself; `ok none` leaves
`image_url = None`, an `error` propagates to the outer `except` of line
158 (which returns `None`). -/
def syncExtract (data : Json) : Except Unit (Option Json) := do
  let hasResult ← pyContains data "result"
  let c1 ←
    if hasResult then do
      let r ← pyIndex data "result"
      Except.ok (match r with | Json.arr (_ :: _) => true | _ => false)
    else Except.ok false
  if c1 then
    let r ← pyIndex data "result"
    match r with
    | Json.arr (x :: _) => Except.ok (some x)
    | _ => Except.error ()
  else
    let c2 ←
      if hasResult then do
        let r ← pyIndex data "result"
        Except.ok (match r with | Json.obj _ => true | _ => false)
      else Except.ok false
    if c2 then
      let r ← pyIndex data "result"
      match r with
      | Json.obj rf =>
          match pyOr (pyGetD rf "url" Json.null) (pyGetD rf "image_url" Json.null) with
          | Json.null => Except.ok none
          | v => Except.ok (some v)
      | _ => Except.error ()
    else
      let c3 ← pyContains data "image_url"
      if c3 then do
        let u ← pyIndex data "image_url"
        Except.ok (some u)
      else
        let c4 ← pyContains data "urls"
        if c4 then do
          let us ← pyIndex data "urls"
          let u ← pyIndexZero us
          Except.ok (some u)
        else Except.ok none

/-- The full `_make_api_call` (src/cinematographer.py lines 91-160),
abstracted over the network: `resp` is the parsed body of the initial
POST (`none` when the request, `raise_for_status` or `.json()` raised),
`responses i` the parsed body of the i-th status GET, and `download` the
behavior of `_download_image`.  Returns the downloaded temp-file path or
`none`. -/
def makeApiCall (resp : Option Json) (responses : Nat → Option Json)
    (download : Json → Option String) : Option String :=
  match resp with
  | none => none
  | some data =>
      match pyContains data "status_url" with
      | Except.error _ => none
      | Except.ok true =>
          match pyIndex data "status_url" with
          | Except.error _ => none
          | Except.ok _ => makeApiCallAsync responses download
      | Except.ok false =>
          match syncExtract data with
          | Except.error _ => none
          | Except.ok none => none
          | Except.ok (some u) => if jsonTruthy u then download u else none

/-! ## Generic lemmas about the poll loop -/

/-- A poll response on which the loop keeps running: a raising GET or a
body whose step continues. -/
def contResp (step : Json → StepR) (r : Option Json) : Bool :=
  match r with
  | none => true
  | some d =>
      match step d with
      | StepR.next => true
      | _ => false

theorem pollEngine_succ (step : Json → StepR) (responses : Nat → Option Json)
    (i fuel : Nat) :
    pollEngine step responses i (fuel + 1) =
      match responses i with
      | none =>
          ((pollEngine step responses (i + 1) fuel).1,
           (pollEngine step responses (i + 1) fuel).2 + 1)
      | some d =>
          match step d with
          | StepR.found url => (some url, 1)
          | StepR.retNull => (none, 1)
          | StepR.next =>
              ((pollEngine step responses (i + 1) fuel).1,
               (pollEngine step responses (i + 1) fuel).2 + 1) := rfl

theorem pollEngine_cont (step : Json → StepR) (responses : Nat → Option Json)
    (i fuel : Nat) (h : contResp step (responses i) = true) :
    pollEngine step responses i (fuel + 1) =
      ((pollEngine step responses (i + 1) fuel).1,
       (pollEngine step responses (i + 1) fuel).2 + 1) := by
  rw [pollEngine_succ]
  cases hr : responses i with
  | none => simp
  | some d =>
      simp only [contResp, hr] at h
      cases hs : step d with
      | found u => rw [hs] at h; simp at h
      | retNull => rw [hs] at h; simp at h
      | next => simp [hs]

theorem pollEngine_found (step : Json → StepR) (responses : Nat → Option Json)
    (i fuel : Nat) (d : Json) (u : Json)
    (hr : responses i = some d) (hs : step d = StepR.found u) :
    pollEngine step responses i (fuel + 1) = (some u, 1) := by
  rw [pollEngine_succ, hr]
  simp [hs]

theorem pollEngine_retNull (step : Json → StepR) (responses : Nat → Option Json)
    (i fuel : Nat) (d : Json)
    (hr : responses i = some d) (hs : step d = StepR.retNull) :
    pollEngine step responses i (fuel + 1) = (none, 1) := by
  rw [pollEngine_succ, hr]
  simp [hs]
theorem pollEngine_skip (step : Json → StepR) (responses : Nat → Option Json)
    (n : Nat) :
    ∀ i fuel, (∀ j, j < n → contResp step (responses (i + j)) = true) →
    (pollEngine step responses i (n + fuel)).1 =
        (pollEngine step responses (i + n) fuel).1 ∧
    (pollEngine step responses i (n + fuel)).2 =
        (pollEngine step responses (i + n) fuel).2 + n := by
  induction n with
  | zero => intro i fuel _; simp
  | succ n ih =>
      intro i fuel h
      have h0 : contResp step (responses i) = true := by
        have := h 0 (Nat.succ_pos n)
        simpa using this
      have hstep : n + 1 + fuel = (n + fuel) + 1 := by omega
      rw [hstep, pollEngine_cont step responses i (n + fuel) h0]
      have hsh : ∀ j, j < n → contResp step (responses (i + 1 + j)) = true := by
        intro j hj
        have := h (j + 1) (by omega)
        have harith : i + (j + 1) = i + 1 + j := by omega
        rwa [harith] at this
      obtain ⟨ih1, ih2⟩ := ih (i + 1) fuel hsh
      have harith2 : i + 1 + n = i + (n + 1) := by omega
      rw [harith2] at ih1 ih2
      constructor
      · simpa using ih1
      · simp only
        omega

theorem pollEngine_timeout (step : Json → StepR) (responses : Nat → Option Json)
    (i fuel : Nat) (h : ∀ j, j < fuel → contResp step (responses (i + j)) = true) :
    pollEngine step responses i fuel = (none, fuel) := by
  obtain ⟨h1, h2⟩ := pollEngine_skip step responses fuel i 0 h
  rw [Nat.add_zero] at h1 h2
  have hz : pollEngine step responses (i + fuel) 0 = (none, 0) := rfl
  rw [hz] at h1 h2
  ext1
  · simpa using h1
  · simpa using h2

theorem pollEngine_count_le (step : Json → StepR) (responses : Nat → Option Json) :
    ∀ fuel i, (pollEngine step responses i fuel).2 ≤ fuel := by
  intro fuel
  induction fuel with
  | zero => intro i; simp [pollEngine]
  | succ fuel ih =>
      intro i
      by_cases hc : contResp step (responses i) = true
      · rw [pollEngine_cont step responses i fuel hc]
        have := ih (i + 1)
        simp only
        omega
      · cases hr : responses i with
        | none => exact absurd (by rw [hr]; rfl) hc
        | some d =>
            cases hs : step d with
            | found u => rw [pollEngine_found step responses i fuel d u hr hs]; simp
            | retNull => rw [pollEngine_retNull step responses i fuel d hr hs]; simp
            | next => exact absurd (by rw [hr]; simp [contResp, hs]) hc

theorem pollEngine_found_inv (step : Json → StepR) (responses : Nat → Option Json) :
    ∀ fuel i u, (pollEngine step responses i fuel).1 = some u →
      ∃ j, j < fuel ∧ ∃ d, responses (i + j) = some d ∧ step d = StepR.found u := by
  intro fuel
  induction fuel with
  | zero => intro i u h; simp [pollEngine] at h
  | succ fuel ih =>
      intro i u h
      by_cases hc : contResp step (responses i) = true
      · rw [pollEngine_cont step responses i fuel hc] at h
        simp only at h
        obtain ⟨j, hj, d, hd, hs⟩ := ih (i + 1) u h
        refine ⟨j + 1, by omega, d, ?_, hs⟩
        have harith : i + (j + 1) = i + 1 + j := by omega
        rw [harith]; exact hd
      · cases hr : responses i with
        | none => exact absurd (by rw [hr]; rfl) hc
        | some d =>
            cases hs : step d with
            | found u' =>
                rw [pollEngine_found step responses i fuel d u' hr hs] at h
                simp only at h
                obtain rfl : u' = u := by simpa using h
                exact ⟨0, by omega, d, by simpa using hr, hs⟩
            | retNull =>
                rw [pollEngine_retNull step responses i fuel d hr hs] at h
                simp at h
            | next => exact absurd (by rw [hr]; simp [contResp, hs]) hc

theorem pollEngine_congr (step : Json → StepR) (r1 r2 : Nat → Option Json) :
    ∀ fuel i, (∀ j, j < fuel → r1 (i + j) = r2 (i + j)) →
      pollEngine step r1 i fuel = pollEngine step r2 i fuel := by
  intro fuel
  induction fuel with
  | zero => intro i _; simp [pollEngine]
  | succ fuel ih =>
      intro i h
      have h0 : r1 i = r2 i := by simpa using h 0 (Nat.succ_pos fuel)
      have hrest : ∀ j, j < fuel → r1 (i + 1 + j) = r2 (i + 1 + j) := by
        intro j hj
        have := h (j + 1) (by omega)
        have harith : i + (j + 1) = i + 1 + j := by omega
        rwa [harith] at this
      by_cases hc : contResp step (r1 i) = true
      · have hc2 : contResp step (r2 i) = true := by rw [← h0]; exact hc
        rw [pollEngine_cont step r1 i fuel hc, pollEngine_cont step r2 i fuel hc2,
          ih (i + 1) hrest]
      · cases hr : r1 i with
        | none => exact absurd (by rw [hr]; rfl) hc
        | some d =>
            have hr2 : r2 i = some d := by rw [← h0]; exact hr
            cases hs : step d with
            | found u =>
                rw [pollEngine_found step r1 i fuel d u hr hs,
                  pollEngine_found step r2 i fuel d u hr2 hs]
            | retNull =>
                rw [pollEngine_retNull step r1 i fuel d hr hs,
                  pollEngine_retNull step r2 i fuel d hr2 hs]
            | next => exact absurd (by rw [hr]; simp [contResp, hs]) hc

/-! ## src/scene_parser.py -/

/-- `DEFAULT_PARAMETERS` (src/scene_parser.py lines 16-21). -/
def DEFAULT_PARAMETERS : Dict :=
  [("camera_angle", Json.str "Eye Level"),
   ("lighting", Json.str "Natural"),
   ("composition", Json.str "Wide Shot"),
   ("field_of_view", Json.str "35mm")]

/-- `json.loads`, abstracted: `loads s = some v` when `s` parses to the
JSON value `v`, `none` for a `JSONDecodeError`.  Callers pass the parsed
value to `dict.update`, which raises on non-dict arguments
(`TypeError`/`ValueError`), landing in the same `except` fallback as a
parse error; the exotic case of a list of two-element sequences, which
`update` would accept, is not modelled. -/
def loadsObj (loads : String → Option Json) (s : String) : Option Dict :=
  match loads s with
  | some (Json.obj params) => some params
  | _ => none

/-- The `"result" not in data or "structured_prompt" not in
data["result"]` shape test shared by `get_scene_parameters` (line 53)
and `refine_scene_parameters` (line 123), followed by the
`data["result"]["structured_prompt"]` item accesses: `ok (some v)` when
the nested value is reachable, `ok none` when the test routes to the
failure branch, `error` when a lookup raises (caught by the enclosing
generic `except`, which takes the same failure branch). -/
def structuredPromptOf (data : Json) : Except Unit (Option Json) :=
  match pyAndM (pyContains data "result")
      (fun _ => do pyContains (← pyIndex data "result") "structured_prompt") with
  | Except.error e => Except.error e
  | Except.ok false => Except.ok none
  | Except.ok true => do
      let r ← pyIndex data "result"
      let v ← pyIndex r "structured_prompt"
      Except.ok (some v)

/-- `get_scene_parameters` (src/scene_parser.py lines 23-77), abstracted
over the network: `resp` is the parsed body of the POST (`none` when the
request, `raise_for_status` or `.json()` raised). -/
def getSceneParameters (resp : Option Json) (loads : String → Option Json) : Dict :=
  match resp with
  | none => DEFAULT_PARAMETERS
  | some data =>
      match structuredPromptOf data with
      | Except.error _ => DEFAULT_PARAMETERS
      | Except.ok none => DEFAULT_PARAMETERS
      | Except.ok (some (Json.str s)) =>
          match loadsObj loads s with
          | none => DEFAULT_PARAMETERS
          | some params => dictUpdate DEFAULT_PARAMETERS params
      | Except.ok (some _) => DEFAULT_PARAMETERS

/-- Temperature block of `_fallback_refinement` (lines 160-170). -/
def fallbackWarmCool (refined : Dict) (lw : String) : Dict :=
  if strContainsSub lw "warm" then
    match pyGetD refined "lighting" Json.null with
    | Json.obj lf =>
        let lf1 := dictSet lf "temperature" (Json.str "warm")
        let lf2 := dictSet lf1 "quality" (pyGetD lf1 "quality" (Json.str "soft"))
        dictSet refined "lighting" (Json.obj lf2)
    | _ =>
        dictSet refined "lighting"
          (Json.obj [("direction", pyGetD refined "lighting" (Json.str "natural")),
                     ("temperature", Json.str "warm")])
  else if strContainsSub lw "cool" || strContainsSub lw "cold" then
    match pyGetD refined "lighting" Json.null with
    | Json.obj lf =>
        dictSet refined "lighting" (Json.obj (dictSet lf "temperature" (Json.str "cool")))
    | _ =>
        dictSet refined "lighting"
          (Json.obj [("direction", pyGetD refined "lighting" (Json.str "natural")),
                     ("temperature", Json.str "cool")])
  else refined

/-- Intensity block of `_fallback_refinement` (lines 173-182). -/
def fallbackIntensity (refined : Dict) (lw : String) : Dict :=
  if strContainsSub lw "bright" || strContainsSub lw "brighter" then
    match pyGetD refined "lighting" Json.null with
    | Json.obj lf =>
        dictSet refined "lighting" (Json.obj (dictSet lf "intensity" (Json.str "bright")))
    | _ =>
        dictSet refined "lighting"
          (Json.obj [("direction", pyGetD refined "lighting" (Json.str "natural")),
                     ("intensity", Json.str "bright")])
  else if strContainsSub lw "dim" || strContainsSub lw "darker" then
    match pyGetD refined "lighting" Json.null with
    | Json.obj lf =>
        dictSet refined "lighting" (Json.obj (dictSet lf "intensity" (Json.str "dim")))
    | _ =>
        dictSet refined "lighting"
          (Json.obj [("direction", pyGetD refined "lighting" (Json.str "natural")),
                     ("intensity", Json.str "dim")])
  else refined

/-- Camera-angle block of `_fallback_refinement` (lines 185-190). -/
def fallbackAngle (refined : Dict) (lw : String) : Dict :=
  if strContainsSub lw "low angle" || strContainsSub lw "lower angle" then
    dictSet refined "camera_angle" (Json.str "Low Angle")
  else if strContainsSub lw "high angle" || strContainsSub lw "higher angle"
      || strContainsSub lw "overhead" then
    dictSet refined "camera_angle" (Json.str "High Angle")
  else if strContainsSub lw "eye level" then
    dictSet refined "camera_angle" (Json.str "Eye Level")
  else refined

/-- Shot-type block of `_fallback_refinement` (lines 193-198). -/
def fallbackShot (refined : Dict) (lw : String) : Dict :=
  if strContainsSub lw "close" || strContainsSub lw "closer" then
    dictSet refined "field_of_view" (Json.str "close up")
  else if strContainsSub lw "wide" || strContainsSub lw "wider" then
    dictSet refined "field_of_view" (Json.str "wide")
  else if strContainsSub lw "medium" then
    dictSet refined "field_of_view" (Json.str "normal")
  else refined

/-- Quality block of `_fallback_refinement` (lines 201-210). -/
def fallbackQuality (refined : Dict) (lw : String) : Dict :=
  if strContainsSub lw "soft" || strContainsSub lw "softer" then
    match pyGetD refined "lighting" Json.null with
    | Json.obj lf =>
        dictSet refined "lighting" (Json.obj (dictSet lf "quality" (Json.str "soft")))
    | _ =>
        dictSet refined "lighting"
          (Json.obj [("direction", pyGetD refined "lighting" (Json.str "natural")),
                     ("quality", Json.str "soft")])
  else if strContainsSub lw "hard" || strContainsSub lw "harsh" then
    match pyGetD refined "lighting" Json.null with
    | Json.obj lf =>
        dictSet refined "lighting" (Json.obj (dictSet lf "quality" (Json.str "hard")))
    | _ =>
        dictSet refined "lighting"
          (Json.obj [("direction", pyGetD refined "lighting" (Json.str "natural")),
                     ("quality", Json.str "hard")])
  else refined

/-- `_fallback_refinement` (src/scene_parser.py lines 151-213): a copy
of the existing parameters modified by keyword matching on the
lowercased request. -/
def fallbackRefinement (existing : Dict) (request : String) : Dict :=
  let lw := pyLower request
  fallbackQuality
    (fallbackShot (fallbackAngle (fallbackIntensity (fallbackWarmCool existing lw) lw) lw) lw) lw

/-- `refine_scene_parameters` (src/scene_parser.py lines 80-148),
abstracted over the network like `getSceneParameters`; every failure
path routes to `_fallback_refinement`. -/
def refineSceneParameters (existing : Dict) (request : String)
    (resp : Option Json) (loads : String → Option Json) : Dict :=
  match resp with
  | none => fallbackRefinement existing request
  | some data =>
      match structuredPromptOf data with
      | Except.error _ => fallbackRefinement existing request
      | Except.ok none => fallbackRefinement existing request
      | Except.ok (some (Json.str s)) =>
          match loadsObj loads s with
          | none => fallbackRefinement existing request
          | some refined => dictUpdate existing refined
      | Except.ok (some _) => fallbackRefinement existing request

/-! ## src/__init__.py -/

/-- Lines 243-245 of `SCENE_OT_export_to_set.execute`: append `.json`
unless the lowercased path already ends with it. -/
def ensureJsonExt (filepath : String) : String :=
  if pyEndsWith (pyLower filepath) ".json" then filepath else filepath ++ ".json"

/-- `math.degrees`. -/
noncomputable def mathDegrees (r : ℝ) : ℝ := r * 180 / Real.pi

/-- The sun-angle block of the JSON export. -/
structure SunData where
  elevation : ℝ
  azimuth : ℝ
  directionX : ℝ
  directionY : ℝ
  directionZ : ℝ

/-- `SCENE_OT_export_to_set._get_sun_data` (src/__init__.py lines
292-338) on the sun light's Euler rotation `(rx, ry, rz)` in radians:
elevation `90 - degrees(x)` (line 319), azimuth `degrees(z)` (line 320),
direction vector of lines 312-314.  Exact real arithmetic stands in for
floating point and the presentational `round(_, k)` of the export is not
applied.  As in the source, the `y` rotation does not enter any derived
quantity. -/
noncomputable def getSunData (rx ry rz : ℝ) : SunData :=
  { elevation := 90 - mathDegrees rx
    azimuth := mathDegrees rz
    directionX := -Real.sin rz * Real.cos rx
    directionY := Real.cos rz * Real.cos rx
    directionZ := -Real.sin rx }

/-- Result status of a Blender operator `execute`. -/
inductive OpStatus where
  | finished
  | cancelled
deriving DecidableEq

/-- Initial value of the module-level `_last_scene_data` (line 29). -/
def initLastSceneData : Dict := []

/-- `SCENE_OT_generate_scene.execute` (lines 65-136) restricted to its
effect on `_last_scene_data`: `script` is the selected text block's
content (`none` when no block is selected); `resp`/`loads` are the API
outcome fed to `get_scene_parameters`.  On success the module variable
is replaced by a copy of the parsed data (line 86). -/
def execGenerateScene (lastSceneData : Dict) (script : Option String)
    (resp : Option Json) (loads : String → Option Json) : Dict × OpStatus :=
  match script with
  | none => (lastSceneData, OpStatus.cancelled)
  | some s =>
      if strBlank s then (lastSceneData, OpStatus.cancelled)
      else (getSceneParameters resp loads, OpStatus.finished)

/-- `SCENE_OT_refine_scene.execute` (lines 145-207) restricted to its
effect on `_last_scene_data`: empty previous data or a blank refinement
request cancel without touching it (lines 149-157); otherwise the
variable is replaced by a copy of the refined data (line 167). -/
def execRefineScene (lastSceneData : Dict) (refineText : String)
    (resp : Option Json) (loads : String → Option Json) : Dict × OpStatus :=
  if lastSceneData.isEmpty then (lastSceneData, OpStatus.cancelled)
  else if strBlank refineText then (lastSceneData, OpStatus.cancelled)
  else (refineSceneParameters lastSceneData refineText resp loads, OpStatus.finished)

/-- The user actions of the add-on panel, as they bear on
`_last_scene_data`.  `pasteScript`, `exportToSet` and `addForeground`
(and the panel draw code) never assign the variable, so they are one
constructor. -/
inductive AddonAction where
  | generateScene (script : Option String) (resp : Option Json)
      (loads : String → Option Json)
  | refineScene (refineText : String) (resp : Option Json)
      (loads : String → Option Json)
  | otherOp

/-- One operator invocation acting on `_last_scene_data`. -/
def addonStep (st : Dict) : AddonAction → Dict × OpStatus
  | AddonAction.generateScene script resp loads => execGenerateScene st script resp loads
  | AddonAction.refineScene t resp loads => execRefineScene st t resp loads
  | AddonAction.otherOp => (st, OpStatus.finished)

/-! ### Worker threads, timers and temp files -/

/-- Host-visible effects of the background-request machinery. -/
inductive HostEvent where
  | spawnThread (daemon : Bool)
  | apiCall
  | timerRegister
  | workerWrite (prop : String)
  | consoleLog
deriving DecidableEq

/-- Return value of the timer callback `update_scene` registered on the
success path of `SCENE_OT_generate_scene` (src/__init__.py line 124):
`return None # Unregister timer`. -/
def updateSceneTimerReturn : Option Nat := none

/-- Return value of the timer callback `update_scene` of
`SCENE_OT_refine_scene` (line 193). -/
def refineTimerReturn : Option Nat := none

/-- Return value of the timer callback `import_card` of
`SCENE_OT_add_foreground` (line 375). -/
def importCardTimerReturn : Option Nat := none

/-- Trace of one `generate_background_image` request
(src/cinematographer.py lines 15-30) with the callback wired in by
`SCENE_OT_generate_scene.execute` (src/__init__.py lines 101-133):
a fresh daemon thread is spawned, the worker performs the blocking API
call, and the callback either registers the one-shot timer (success,
line 127) or prints and writes `previz_status` directly from the worker
thread (failure, lines 130-131). -/
def generateBackgroundTrace (result : Option String) : List HostEvent :=
  [HostEvent.spawnThread true, HostEvent.apiCall] ++
    (match result with
     | some _ => [HostEvent.timerRegister]
     | none => [HostEvent.consoleLog, HostEvent.workerWrite "previz_status"])

/-- Trace of one `generate_background_image` request issued by
`SCENE_OT_refine_scene.execute` (src/__init__.py lines 179-201): on
failure the callback only prints (line 199). -/
def refineBackgroundTrace (result : Option String) : List HostEvent :=
  [HostEvent.spawnThread true, HostEvent.apiCall] ++
    (match result with
     | some _ => [HostEvent.timerRegister]
     | none => [HostEvent.consoleLog])

/-- Trace of one `generate_foreground_element` request
(src/cinematographer.py lines 187-212) with the `on_complete` callback
of `SCENE_OT_add_foreground.execute` (src/__init__.py lines 356-380):
an error or a missing path only prints; success registers the one-shot
`import_card` timer (line 378). -/
def addForegroundTrace (result : Option String) (errorMsg : Option String) :
    List HostEvent :=
  [HostEvent.spawnThread true, HostEvent.apiCall] ++
    (match errorMsg with
     | some _ => [HostEvent.consoleLog]
     | none =>
         match result with
         | some _ => [HostEvent.timerRegister]
         | none => [HostEvent.consoleLog])

/-- File-system operations on temporary image files, in program order. -/
inductive FileOp where
  | create (path : String)
  | write (path : String)
  | read (path : String)
  | delete (path : String)
deriving DecidableEq

/-- `_download_image` (src/cinematographer.py lines 162-184), success
path: `tempfile.mkstemp` creates a persisting temp file (line 174),
`copyfileobj` writes it (line 177), and its path is returned; the
function contains no deletion. -/
def downloadImageOps (path : String) : List FileOp :=
  [FileOp.create path, FileOp.write path]

/-- `_download_image_as_png` (src/cinematographer.py lines 376-394),
success path: same shape with a `.png` suffix. -/
def downloadImageAsPngOps (path : String) : List FileOp :=
  [FileOp.create path, FileOp.write path]

/-- `director.setup_world_background` (src/director.py lines 102-168):
consumes the downloaded file via `bpy.data.images.load` (line 135); no
file deletion. -/
def setupWorldBackgroundOps (path : String) : List FileOp :=
  [FileOp.read path]

/-- `director.import_image_as_card` (src/director.py lines 202-313):
consumes the downloaded file via `bpy.data.images.load` (line 218); no
file deletion. -/
def importImageAsCardOps (path : String) : List FileOp :=
  [FileOp.read path]

/-- Complete file lifecycle of a successful background request: download
then consumption by the timer callback.  No other code in the repository
touches the file. -/
def backgroundLifecycleOps (path : String) : List FileOp :=
  downloadImageOps path ++ setupWorldBackgroundOps path

/-- Complete file lifecycle of a successful foreground request. -/
def foregroundLifecycleOps (path : String) : List FileOp :=
  downloadImageAsPngOps path ++ importImageAsCardOps path

/-! ## Helper lemmas -/

theorem lookupKey_any (fs : Dict) (k : String) :
    fs.any (fun kv => kv.1 == k) = (lookupKey fs k).isSome := by
  induction fs with
  | nil => simp [lookupKey]
  | cons kv rest ih =>
      obtain ⟨k0, v0⟩ := kv
      by_cases h : k0 = k <;> simp [lookupKey, h, ih]

theorem getSceneParameters_shape (resp : Option Json) (loads : String → Option Json) :
    getSceneParameters resp loads = DEFAULT_PARAMETERS ∨
      ∃ params, getSceneParameters resp loads = dictUpdate DEFAULT_PARAMETERS params := by
  cases resp with
  | none => exact Or.inl rfl
  | some data =>
      rcases hsp : structuredPromptOf data with e | o
      · left; simp [getSceneParameters, hsp]
      · rcases o with _ | v
        · left; simp [getSceneParameters, hsp]
        · cases v with
          | str s =>
              cases hl : loadsObj loads s with
              | none => left; simp [getSceneParameters, hsp, hl]
              | some params => right; exact ⟨params, by simp [getSceneParameters, hsp, hl]⟩
          | null => left; simp [getSceneParameters, hsp]
          | bool b => left; simp [getSceneParameters, hsp]
          | num n => left; simp [getSceneParameters, hsp]
          | arr l => left; simp [getSceneParameters, hsp]
          | obj l => left; simp [getSceneParameters, hsp]

theorem refineSceneParameters_shape (existing : Dict) (request : String)
    (resp : Option Json) (loads : String → Option Json) :
    refineSceneParameters existing request resp loads = fallbackRefinement existing request ∨
      ∃ refined, refineSceneParameters existing request resp loads = dictUpdate existing refined := by
  cases resp with
  | none => exact Or.inl rfl
  | some data =>
      rcases hsp : structuredPromptOf data with e | o
      · left; simp [refineSceneParameters, hsp]
      · rcases o with _ | v
        · left; simp [refineSceneParameters, hsp]
        · cases v with
          | str s =>
              cases hl : loadsObj loads s with
              | none => left; simp [refineSceneParameters, hsp, hl]
              | some params => right; exact ⟨params, by simp [refineSceneParameters, hsp, hl]⟩
          | null => left; simp [refineSceneParameters, hsp]
          | bool b => left; simp [refineSceneParameters, hsp]
          | num n => left; simp [refineSceneParameters, hsp]
          | arr l => left; simp [refineSceneParameters, hsp]
          | obj l => left; simp [refineSceneParameters, hsp]

theorem fallbackWarmCool_mem (d : Dict) (lw : String) (k : String)
    (h : (lookupKey d k).isSome = true) :
    (lookupKey (fallbackWarmCool d lw) k).isSome = true := by
  unfold fallbackWarmCool
  repeat' split
  all_goals first | exact dictSet_mem _ _ _ _ h | exact h

theorem fallbackIntensity_mem (d : Dict) (lw : String) (k : String)
    (h : (lookupKey d k).isSome = true) :
    (lookupKey (fallbackIntensity d lw) k).isSome = true := by
  unfold fallbackIntensity
  repeat' split
  all_goals first | exact dictSet_mem _ _ _ _ h | exact h

theorem fallbackAngle_mem (d : Dict) (lw : String) (k : String)
    (h : (lookupKey d k).isSome = true) :
    (lookupKey (fallbackAngle d lw) k).isSome = true := by
  unfold fallbackAngle
  repeat' split
  all_goals first | exact dictSet_mem _ _ _ _ h | exact h

theorem fallbackShot_mem (d : Dict) (lw : String) (k : String)
    (h : (lookupKey d k).isSome = true) :
    (lookupKey (fallbackShot d lw) k).isSome = true := by
  unfold fallbackShot
  repeat' split
  all_goals first | exact dictSet_mem _ _ _ _ h | exact h

theorem fallbackQuality_mem (d : Dict) (lw : String) (k : String)
    (h : (lookupKey d k).isSome = true) :
    (lookupKey (fallbackQuality d lw) k).isSome = true := by
  unfold fallbackQuality
  repeat' split
  all_goals first | exact dictSet_mem _ _ _ _ h | exact h

theorem fallbackRefinement_mem (existing : Dict) (request : String) (k : String)
    (h : (lookupKey existing k).isSome = true) :
    (lookupKey (fallbackRefinement existing request) k).isSome = true := by
  unfold fallbackRefinement
  exact fallbackQuality_mem _ _ _
    (fallbackShot_mem _ _ _
      (fallbackAngle_mem _ _ _
        (fallbackIntensity_mem _ _ _ (fallbackWarmCool_mem _ _ _ h))))

/-! ## Claim theorems -/

/-- C8: for every input prompt and every API outcome (request exception,
malformed response shape, JSON decode error, or success), the dictionary
returned by `get_scene_parameters` contains all four default keys
`camera_angle`, `lighting`, `composition` and `field_of_view`, because
the result is always either `DEFAULT_PARAMETERS` or `DEFAULT_PARAMETERS`
updated with the parsed values. -/
theorem get_scene_parameters_default_keys (resp : Option Json)
    (loads : String → Option Json) :
    (lookupKey (getSceneParameters resp loads) "camera_angle").isSome = true ∧
    (lookupKey (getSceneParameters resp loads) "lighting").isSome = true ∧
    (lookupKey (getSceneParameters resp loads) "composition").isSome = true ∧
    (lookupKey (getSceneParameters resp loads) "field_of_view").isSome = true ∧
    (getSceneParameters resp loads = DEFAULT_PARAMETERS ∨
      ∃ params, getSceneParameters resp loads = dictUpdate DEFAULT_PARAMETERS params) := by
  have hshape := getSceneParameters_shape resp loads
  have hkey : ∀ k : String, (lookupKey DEFAULT_PARAMETERS k).isSome = true →
      (lookupKey (getSceneParameters resp loads) k).isSome = true := by
    intro k hk
    rcases hshape with h | ⟨params, h⟩
    · rw [h]; exact hk
    · rw [h]; exact dictUpdate_mem_left _ _ _ hk
  exact ⟨hkey "camera_angle" (by decide), hkey "lighting" (by decide),
    hkey "composition" (by decide), hkey "field_of_view" (by decide), hshape⟩

/-- C9: `refine_scene_parameters` never drops a key of the existing
parameters: the API path starts from a copy of the existing dict and
only updates it, and the fallback path starts from a copy and only adds
or overwrites entries. -/
theorem refine_keeps_keys (existing : Dict) (request : String) (resp : Option Json)
    (loads : String → Option Json) (k : String)
    (hk : (lookupKey existing k).isSome = true) :
    (lookupKey (refineSceneParameters existing request resp loads) k).isSome = true := by
  rcases refineSceneParameters_shape existing request resp loads with h | ⟨refined, h⟩
  · rw [h]; exact fallbackRefinement_mem _ _ _ hk
  · rw [h]; exact dictUpdate_mem_left _ _ _ hk

/-- C9 witness: a concrete key of a concrete existing dict survives a
refinement whose API call failed. -/
theorem refine_keeps_keys_witness :
    (lookupKey (refineSceneParameters [("background_setting", Json.str "alley")]
      "make the lights warmer" none (fun _ => none)) "background_setting").isSome = true :=
  refine_keeps_keys [("background_setting", Json.str "alley")]
    "make the lights warmer" none (fun _ => none) "background_setting" (by decide)

/-- C10: the Export to Set operator writes to a path ending in ".json":
the extension is appended exactly when the lowercased user path does not
already end with ".json", so the written path always has the extension
case-insensitively. -/
theorem export_path_always_json (p : String) :
    pyEndsWith (pyLower (ensureJsonExt p)) ".json" = true ∧
    (ensureJsonExt p = p ++ ".json" ↔ pyEndsWith (pyLower p) ".json" = false) := by
  unfold ensureJsonExt
  by_cases h : pyEndsWith (pyLower p) ".json" = true
  · rw [if_pos h]
    refine ⟨h, ?_, ?_⟩
    · intro heq
      have hlen := congrArg String.length heq
      rw [String.length_append] at hlen
      have h5 : (".json" : String).length = 5 := rfl
      omega
    · intro hfalse
      rw [h] at hfalse
      exact absurd hfalse (by simp)
  · rw [if_neg h]
    have hfalse : pyEndsWith (pyLower p) ".json" = false := by
      cases hb : pyEndsWith (pyLower p) ".json"
      · rfl
      · exact absurd hb h
    refine ⟨?_, fun _ => hfalse, fun _ => rfl⟩
    unfold pyEndsWith pyLower
    have hdata : (p ++ ".json").data = p.data ++ (".json" : String).data :=
      String.data_append p ".json"
    rw [hdata, List.map_append]
    have hlow : ((".json" : String).data.map Char.toLower) = (".json" : String).data := by
      decide
    rw [hlow]
    exact decide_eq_true (List.suffix_append _ _)

/-- C6: the on-demand JSON export derives elevation `90 - degrees(x)`,
azimuth `degrees(z)` and direction vector
`(-sin(z)cos(x), cos(z)cos(x), -sin(x))` from the sun light's Euler
rotation, and for every `x` and `z` (and independently of the unused `y`
rotation) the direction vector has Euclidean norm 1, as the export's
note claims. -/
theorem sun_export_normalized (rx ry rz : ℝ) :
    (getSunData rx ry rz).elevation = 90 - rx * 180 / Real.pi ∧
    (getSunData rx ry rz).azimuth = rz * 180 / Real.pi ∧
    (getSunData rx ry rz).directionX = -Real.sin rz * Real.cos rx ∧
    (getSunData rx ry rz).directionY = Real.cos rz * Real.cos rx ∧
    (getSunData rx ry rz).directionZ = -Real.sin rx ∧
    Real.sqrt ((getSunData rx ry rz).directionX ^ 2 +
      (getSunData rx ry rz).directionY ^ 2 +
      (getSunData rx ry rz).directionZ ^ 2) = 1 := by
  refine ⟨rfl, rfl, rfl, rfl, rfl, ?_⟩
  have hsum : (getSunData rx ry rz).directionX ^ 2 +
      (getSunData rx ry rz).directionY ^ 2 +
      (getSunData rx ry rz).directionZ ^ 2 = 1 := by
    show (-Real.sin rz * Real.cos rx) ^ 2 + (Real.cos rz * Real.cos rx) ^ 2 +
      (-Real.sin rx) ^ 2 = 1
    have h1 := Real.sin_sq_add_cos_sq rx
    have h2 := Real.sin_sq_add_cos_sq rz
    nlinarith [h1, h2]
  rw [hsum, Real.sqrt_one]

/-- C5: the module-level `_last_scene_data` holds exactly the most
recent scene parameters: it starts empty; a successful Generate Scene
replaces it with (a copy of) the newly parsed data; an unsuccessful one
leaves it unchanged; Refine Scene invoked while it is empty cancels
without changing it; a successful Refine Scene replaces it with (a copy
of) the refined data; and no other operator modifies it. -/
theorem last_scene_data_lifecycle :
    initLastSceneData = [] ∧
    (∀ st resp loads (s : String), strBlank s = false →
        execGenerateScene st (some s) resp loads =
          (getSceneParameters resp loads, OpStatus.finished)) ∧
    (∀ st resp loads, execGenerateScene st none resp loads = (st, OpStatus.cancelled)) ∧
    (∀ st resp loads (s : String), strBlank s = true →
        execGenerateScene st (some s) resp loads = (st, OpStatus.cancelled)) ∧
    (∀ t resp loads, execRefineScene [] t resp loads = ([], OpStatus.cancelled)) ∧
    (∀ st t resp loads, st.isEmpty = false → strBlank t = false →
        execRefineScene st t resp loads =
          (refineSceneParameters st t resp loads, OpStatus.finished)) ∧
    (∀ st t resp loads, strBlank t = true →
        execRefineScene st t resp loads = (st, OpStatus.cancelled)) ∧
    (∀ st, addonStep st AddonAction.otherOp = (st, OpStatus.finished)) := by
  refine ⟨rfl, ?_, ?_, ?_, ?_, ?_, ?_, ?_⟩
  · intro st resp loads s hs
    simp [execGenerateScene, hs]
  · intro st resp loads
    rfl
  · intro st resp loads s hs
    simp [execGenerateScene, hs]
  · intro t resp loads
    rfl
  · intro st t resp loads hst ht
    simp [execRefineScene, hst, ht]
  · intro st t resp loads ht
    unfold execRefineScene
    by_cases hst : st.isEmpty = true
    · rw [if_pos hst]
    · rw [if_neg hst, if_pos ht]
  · intro st
    rfl

/-- C5 witness: the conjuncts applied at concrete inputs. -/
theorem last_scene_data_lifecycle_witness :
    execGenerateScene [] (some "INT. WAREHOUSE - NIGHT") none (fun _ => none) =
      (getSceneParameters none (fun _ => none), OpStatus.finished) ∧
    execRefineScene [] "warmer" none (fun _ => none) = ([], OpStatus.cancelled) :=
  ⟨last_scene_data_lifecycle.2.1 [] none (fun _ => none) "INT. WAREHOUSE - NIGHT" (by decide),
   last_scene_data_lifecycle.2.2.2.2.1 "warmer" none (fun _ => none)⟩

/-- C4 counterexample: a downloaded background (and foreground) temp
file is consumed (read) by the director but its lifecycle contains no
deletion, so a temp file created by `_download_image` or
`_download_image_as_png` does persist after being consumed. -/
theorem temp_file_not_deleted_counterexample :
    FileOp.read "/tmp/previz_bg_0.exr" ∈ backgroundLifecycleOps "/tmp/previz_bg_0.exr" ∧
    FileOp.delete "/tmp/previz_bg_0.exr" ∉ backgroundLifecycleOps "/tmp/previz_bg_0.exr" ∧
    FileOp.read "/tmp/previz_fg_0.png" ∈ foregroundLifecycleOps "/tmp/previz_fg_0.png" ∧
    FileOp.delete "/tmp/previz_fg_0.png" ∉ foregroundLifecycleOps "/tmp/previz_fg_0.png" := by
  decide

/-- C4 amended: the download helpers create persisting temp files
(`tempfile.mkstemp`) and no code in the repository ever deletes any
file: the full lifecycle of a downloaded image is create, write, read,
with cleanup left to the operating system. -/
theorem temp_files_persist (p q : String) :
    FileOp.create p ∈ downloadImageOps p ∧
    FileOp.create p ∈ downloadImageAsPngOps p ∧
    FileOp.delete q ∉ backgroundLifecycleOps p ∧
    FileOp.delete q ∉ foregroundLifecycleOps p := by
  simp [downloadImageOps, downloadImageAsPngOps, backgroundLifecycleOps,
    foregroundLifecycleOps, setupWorldBackgroundOps, importImageAsCardOps]

/-- C7 counterexample: on the failure path of a Generate Scene request
no timer is registered at all; instead the worker thread writes the
`previz_status` scene property directly (src/__init__.py line 131), so
completion is not marshalled through a timer callback on the failure
path. -/
theorem failure_path_not_marshalled :
    HostEvent.timerRegister ∉ generateBackgroundTrace none ∧
    HostEvent.workerWrite "previz_status" ∈ generateBackgroundTrace none ∧
    HostEvent.timerRegister ∉ refineBackgroundTrace none ∧
    HostEvent.timerRegister ∉ addForegroundTrace none (some "boom") := by
  decide

/-- C7 amended: each image-generation request spawns its own fresh
daemon worker thread (no queueing or pooling); on the success path
completion is marshalled to the main loop by registering a one-shot
timer whose callback returns None to unregister; on the failure path no
timer is registered: the generate callback writes status directly from
the worker and the refine/foreground callbacks only log. -/
theorem worker_thread_lifecycle (result : Option String) (err : Option String) :
    (generateBackgroundTrace result).head? = some (HostEvent.spawnThread true) ∧
    (refineBackgroundTrace result).head? = some (HostEvent.spawnThread true) ∧
    (addForegroundTrace result err).head? = some (HostEvent.spawnThread true) ∧
    (∀ p : String, result = some p →
        HostEvent.timerRegister ∈ generateBackgroundTrace result ∧
        HostEvent.timerRegister ∈ refineBackgroundTrace result ∧
        HostEvent.timerRegister ∈ addForegroundTrace result none) ∧
    (result = none →
        HostEvent.timerRegister ∉ generateBackgroundTrace result ∧
        HostEvent.timerRegister ∉ refineBackgroundTrace result ∧
        HostEvent.workerWrite "previz_status" ∈ generateBackgroundTrace result) ∧
    updateSceneTimerReturn = none ∧ refineTimerReturn = none ∧
    importCardTimerReturn = none := by
  refine ⟨?_, ?_, ?_, ?_, ?_, rfl, rfl, rfl⟩
  · cases result <;> rfl
  · cases result <;> rfl
  · cases result <;> cases err <;> rfl
  · rintro p rfl
    refine ⟨?_, ?_, ?_⟩ <;>
      simp [generateBackgroundTrace, refineBackgroundTrace, addForegroundTrace]
  · rintro rfl
    refine ⟨?_, ?_, ?_⟩ <;>
      simp [generateBackgroundTrace, refineBackgroundTrace]

/-- C7 witness: the success conjunct at a concrete path. -/
theorem worker_thread_lifecycle_witness :
    HostEvent.timerRegister ∈ generateBackgroundTrace (some "/tmp/previz_bg_1.exr") :=
  ((worker_thread_lifecycle (some "/tmp/previz_bg_1.exr") none).2.2.2.1
    "/tmp/previz_bg_1.exr" rfl).1

/-- C3: failures are converted to null/default results rather than
propagating: `get_scene_parameters` returns (a copy of)
`DEFAULT_PARAMETERS` when the request raises, when the response lacks
`result.structured_prompt` (whether the shape test fails or a lookup
raises), and when the structured_prompt string is not valid JSON; and
`_make_api_call` returns None when the request raises, when the
asynchronous poll yields no URL, and when the synchronous branch parses
no URL. -/
theorem errors_become_defaults :
    (∀ loads, getSceneParameters none loads = DEFAULT_PARAMETERS) ∧
    (∀ data loads, structuredPromptOf data = Except.error () →
        getSceneParameters (some data) loads = DEFAULT_PARAMETERS) ∧
    (∀ data loads, structuredPromptOf data = Except.ok none →
        getSceneParameters (some data) loads = DEFAULT_PARAMETERS) ∧
    (∀ data loads s, structuredPromptOf data = Except.ok (some (Json.str s)) →
        loads s = none → getSceneParameters (some data) loads = DEFAULT_PARAMETERS) ∧
    (∀ responses download, makeApiCall none responses download = none) ∧
    (∀ data responses download (v : Json),
        pyContains data "status_url" = Except.ok true →
        pyIndex data "status_url" = Except.ok v →
        (makePoll responses).1 = none →
        makeApiCall (some data) responses download = none) ∧
    (∀ data responses download,
        pyContains data "status_url" = Except.ok false →
        syncExtract data = Except.ok none →
        makeApiCall (some data) responses download = none) := by
  refine ⟨?_, ?_, ?_, ?_, ?_, ?_, ?_⟩
  · intro loads; rfl
  · intro data loads h; simp [getSceneParameters, h]
  · intro data loads h; simp [getSceneParameters, h]
  · intro data loads s h hl
    simp [getSceneParameters, h, loadsObj, hl]
  · intro responses download; rfl
  · intro data responses download v h1 h2 h3
    simp [makeApiCall, h1, h2, makeApiCallAsync, finishImage, h3]
  · intro data responses download h1 h2
    simp [makeApiCall, h1, h2]

/-- C3 witness: the conjuncts applied at concrete inputs. -/
theorem errors_become_defaults_witness :
    getSceneParameters (some (Json.num 0)) (fun _ => none) = DEFAULT_PARAMETERS ∧
    makeApiCall (some (Json.obj [("status_url", Json.str "u")])) (fun _ => none)
      (fun _ => none) = none := by
  constructor
  · exact errors_become_defaults.2.1 (Json.num 0) (fun _ => none) rfl
  · exact errors_become_defaults.2.2.2.2.2.1 (Json.obj [("status_url", Json.str "u")])
      (fun _ => none) (fun _ => none) (Json.str "u") rfl rfl rfl

/-- One iteration body whose status is neither COMPLETED nor FAILED
continues the loop, for each of the three step functions. -/
theorem step_next_of_other_status (d : Json)
    (h1 : statusIs d "COMPLETED" = false) (h2 : statusIs d "FAILED" = false) :
    makeStep d = StepR.next ∧ foreStep d = StepR.next ∧ rmbgStep d = StepR.next := by
  refine ⟨?_, ?_, ?_⟩ <;> simp [makeStep, foreStep, rmbgStep, h1, h2]

/-- C2: every status-polling loop is bounded by its fixed retry ceiling
(60 for `_make_api_call`, 60 for `_poll_for_image_result`, 30 for
`_remove_background`): the loop result depends only on the first
ceiling-many status responses (the original POST is issued once and
never retried); when every response within the ceiling has a status that
is neither COMPLETED nor FAILED (or its GET raises) the loop terminates
with None after sleeping one second in each of its ceiling-many
iterations; and in every run the number of one-second sleeps is at most
the ceiling. -/
theorem poll_ceilings :
    (∀ r1 r2, (∀ i, i < 60 → r1 i = r2 i) → makePoll r1 = makePoll r2) ∧
    (∀ r1 r2, (∀ i, i < 60 → r1 i = r2 i) → forePoll r1 = forePoll r2) ∧
    (∀ r1 r2, (∀ i, i < 30 → r1 i = r2 i) → rmbgPoll r1 = rmbgPoll r2) ∧
    (∀ r, (∀ i, i < 60 → ∀ d, r i = some d →
        statusIs d "COMPLETED" = false ∧ statusIs d "FAILED" = false) →
      makePoll r = (none, 60) ∧ forePoll r = (none, 60)) ∧
    (∀ r, (∀ i, i < 30 → ∀ d, r i = some d →
        statusIs d "COMPLETED" = false ∧ statusIs d "FAILED" = false) →
      rmbgPoll r = (none, 30)) ∧
    (∀ r, (makePoll r).2 ≤ 60 ∧ (forePoll r).2 ≤ 60 ∧ (rmbgPoll r).2 ≤ 30) := by
  have hcont : ∀ (step : Json → StepR) (r : Nat → Option Json) (i : Nat),
      (∀ d, r i = some d → step d = StepR.next) → contResp step (r i) = true := by
    intro step r i h
    cases hr : r i with
    | none => rfl
    | some d => simp [contResp, h d hr]
  refine ⟨?_, ?_, ?_, ?_, ?_, ?_⟩
  · intro r1 r2 h
    exact pollEngine_congr makeStep r1 r2 60 0 (by simpa using h)
  · intro r1 r2 h
    exact pollEngine_congr foreStep r1 r2 60 0 (by simpa using h)
  · intro r1 r2 h
    exact pollEngine_congr rmbgStep r1 r2 30 0 (by simpa using h)
  · intro r h
    constructor
    · refine pollEngine_timeout makeStep r 0 60 ?_
      intro j hj
      refine hcont makeStep r (0 + j) ?_
      intro d hd
      obtain ⟨h1, h2⟩ := h (0 + j) (by omega) d hd
      exact (step_next_of_other_status d h1 h2).1
    · refine pollEngine_timeout foreStep r 0 60 ?_
      intro j hj
      refine hcont foreStep r (0 + j) ?_
      intro d hd
      obtain ⟨h1, h2⟩ := h (0 + j) (by omega) d hd
      exact (step_next_of_other_status d h1 h2).2.1
  · intro r h
    refine pollEngine_timeout rmbgStep r 0 30 ?_
    intro j hj
    refine hcont rmbgStep r (0 + j) ?_
    intro d hd
    obtain ⟨h1, h2⟩ := h (0 + j) (by omega) d hd
    exact (step_next_of_other_status d h1 h2).2.2
  · intro r
    exact ⟨pollEngine_count_le makeStep r 60 0, pollEngine_count_le foreStep r 60 0,
      pollEngine_count_le rmbgStep r 30 0⟩

/-- C2 witness: a run in which every status GET raises exhausts each
ceiling and returns None. -/
theorem poll_ceilings_witness :
    makePoll (fun _ => none) = (none, 60) ∧ rmbgPoll (fun _ => none) = (none, 30) :=
  ⟨(poll_ceilings.2.2.2.1 (fun _ => none) (fun i _ d hd => by cases hd)).1,
   poll_ceilings.2.2.2.2.1 (fun _ => none) (fun i _ d hd => by cases hd)⟩

/-! ## Claim C1: the asynchronous poll of `_make_api_call` -/

theorem makeStep_completed (fs : Dict)
    (h : lookupKey fs "status" = some (Json.str "COMPLETED")) :
    makeStep (Json.obj fs) =
      match extractUrlMake (Json.obj fs) with
      | Except.ok (some url) => StepR.found url
      | Except.ok none => StepR.retNull
      | Except.error _ => StepR.next := by
  simp [makeStep, statusIs, h]

theorem makeStep_failed (fs : Dict)
    (h : lookupKey fs "status" = some (Json.str "FAILED")) :
    makeStep (Json.obj fs) = StepR.retNull := by
  simp [makeStep, statusIs, h]

theorem statusIs_true_imp (d : Json) (s : String) (h : statusIs d s = true) :
    ∃ fs, d = Json.obj fs ∧ lookupKey fs "status" = some (Json.str s) := by
  cases d with
  | obj fs =>
      refine ⟨fs, rfl, ?_⟩
      have h' : (match lookupKey fs "status" with
          | some (Json.str s') => s' == s
          | _ => false) = true := h
      cases hl : lookupKey fs "status" with
      | none => rw [hl] at h'; simp at h'
      | some v =>
          rw [hl] at h'
          cases v with
          | str s' =>
              have hs' : s' = s := by simpa using h'
              rw [hs']
          | null => simp at h'
          | bool b => simp at h'
          | num n => simp at h'
          | arr l => simp at h'
          | obj l => simp at h'
  | null => simp [statusIs] at h
  | bool b => simp [statusIs] at h
  | num n => simp [statusIs] at h
  | str s0 => simp [statusIs] at h
  | arr l => simp [statusIs] at h

theorem makeStep_found_imp (d : Json) (u : Json) (h : makeStep d = StepR.found u) :
    ∃ fs, d = Json.obj fs ∧ lookupKey fs "status" = some (Json.str "COMPLETED") := by
  by_cases hc : statusIs d "COMPLETED" = true
  · exact statusIs_true_imp d "COMPLETED" hc
  · exfalso
    have hcf : statusIs d "COMPLETED" = false := by
      cases hb : statusIs d "COMPLETED"
      · rfl
      · exact absurd hb hc
    by_cases hf : statusIs d "FAILED" = true
    · simp [makeStep, hcf, hf] at h
    · have hff : statusIs d "FAILED" = false := by
        cases hb : statusIs d "FAILED"
        · rfl
        · exact absurd hb hf
      simp [makeStep, hcf, hff] at h

theorem extractUrlMake_result_image (fs rf : Dict) (u : Json)
    (hres : lookupKey fs "result" = some (Json.obj rf))
    (hiu : lookupKey rf "image_url" = some u) :
    extractUrlMake (Json.obj fs) = Except.ok (some u) := by
  have h1 : pyContains (Json.obj fs) "result" = Except.ok true := by
    simp [pyContains, lookupKey_any, hres]
  have h2 : pyIndex (Json.obj fs) "result" = Except.ok (Json.obj rf) := by
    simp [pyIndex, hres]
  have h3 : pyContains (Json.obj rf) "image_url" = Except.ok true := by
    simp [pyContains, lookupKey_any, hiu]
  have h4 : pyIndex (Json.obj rf) "image_url" = Except.ok u := by
    simp [pyIndex, hiu]
  simp [extractUrlMake, pyAndM, h1, h2, h3, h4, Bind.bind, Except.bind]

theorem extractUrlMake_result_urls (fs rf : Dict) (u : Json) (us : List Json)
    (hres : lookupKey fs "result" = some (Json.obj rf))
    (hiu : lookupKey rf "image_url" = none)
    (hurls : lookupKey rf "urls" = some (Json.arr (u :: us))) :
    extractUrlMake (Json.obj fs) = Except.ok (some u) := by
  have h1 : pyContains (Json.obj fs) "result" = Except.ok true := by
    simp [pyContains, lookupKey_any, hres]
  have h2 : pyIndex (Json.obj fs) "result" = Except.ok (Json.obj rf) := by
    simp [pyIndex, hres]
  have h3 : pyContains (Json.obj rf) "image_url" = Except.ok false := by
    simp [pyContains, lookupKey_any, hiu]
  have h4 : pyContains (Json.obj rf) "urls" = Except.ok true := by
    simp [pyContains, lookupKey_any, hurls]
  have h5 : pyIndex (Json.obj rf) "urls" = Except.ok (Json.arr (u :: us)) := by
    simp [pyIndex, hurls]
  simp [extractUrlMake, pyAndM, h1, h2, h3, h4, h5, pyIndexZero, Bind.bind, Except.bind]

theorem extractUrlMake_top_image (fs : Dict) (u : Json)
    (hres : lookupKey fs "result" = none)
    (htop : lookupKey fs "image_url" = some u) :
    extractUrlMake (Json.obj fs) = Except.ok (some u) := by
  have h1 : pyContains (Json.obj fs) "result" = Except.ok false := by
    simp [pyContains, lookupKey_any, hres]
  have h3 : pyContains (Json.obj fs) "image_url" = Except.ok true := by
    simp [pyContains, lookupKey_any, htop]
  have h4 : pyIndex (Json.obj fs) "image_url" = Except.ok u := by
    simp [pyIndex, htop]
  simp [extractUrlMake, pyAndM, h1, h3, h4, Bind.bind, Except.bind]

theorem extractUrlMake_result_neither_top (fs rf : Dict) (u : Json)
    (hres : lookupKey fs "result" = some (Json.obj rf))
    (hiu : lookupKey rf "image_url" = none)
    (hurls : lookupKey rf "urls" = none)
    (htop : lookupKey fs "image_url" = some u) :
    extractUrlMake (Json.obj fs) = Except.ok (some u) := by
  have h1 : pyContains (Json.obj fs) "result" = Except.ok true := by
    simp [pyContains, lookupKey_any, hres]
  have h2 : pyIndex (Json.obj fs) "result" = Except.ok (Json.obj rf) := by
    simp [pyIndex, hres]
  have h3 : pyContains (Json.obj rf) "image_url" = Except.ok false := by
    simp [pyContains, lookupKey_any, hiu]
  have h4 : pyContains (Json.obj rf) "urls" = Except.ok false := by
    simp [pyContains, lookupKey_any, hurls]
  have h5 : pyContains (Json.obj fs) "image_url" = Except.ok true := by
    simp [pyContains, lookupKey_any, htop]
  have h6 : pyIndex (Json.obj fs) "image_url" = Except.ok u := by
    simp [pyIndex, htop]
  simp [extractUrlMake, pyAndM, h1, h2, h3, h4, h5, h6, Bind.bind, Except.bind]

theorem extractUrlMake_none_found (fs : Dict)
    (hres : lookupKey fs "result" = none)
    (htop : lookupKey fs "image_url" = none) :
    extractUrlMake (Json.obj fs) = Except.ok none := by
  have h1 : pyContains (Json.obj fs) "result" = Except.ok false := by
    simp [pyContains, lookupKey_any, hres]
  have h3 : pyContains (Json.obj fs) "image_url" = Except.ok false := by
    simp [pyContains, lookupKey_any, htop]
  simp [extractUrlMake, pyAndM, h1, h3, Bind.bind, Except.bind]

theorem pollEngine_congr_one (step : Json → StepR) (r1 r2 : Nat → Option Json) :
    ∀ fuel i j0, contResp step (r1 (i + j0)) = true →
      contResp step (r2 (i + j0)) = true →
      (∀ j, j < fuel → j ≠ j0 → r1 (i + j) = r2 (i + j)) →
      pollEngine step r1 i fuel = pollEngine step r2 i fuel := by
  intro fuel
  induction fuel with
  | zero => intro i j0 _ _ _; simp [pollEngine]
  | succ fuel ih =>
      intro i j0 hc1 hc2 h
      by_cases hj0 : j0 = 0
      · subst hj0
        rw [Nat.add_zero] at hc1 hc2
        rw [pollEngine_cont step r1 i fuel hc1, pollEngine_cont step r2 i fuel hc2]
        have hall : ∀ j, j < fuel → r1 (i + 1 + j) = r2 (i + 1 + j) := by
          intro j hj
          have := h (j + 1) (by omega) (by omega)
          have harith : i + (j + 1) = i + 1 + j := by omega
          rwa [harith] at this
        rw [pollEngine_congr step r1 r2 fuel (i + 1) hall]
      · have h0 : r1 i = r2 i := by
          have := h 0 (by omega) (by omega)
          simpa using this
        by_cases hcf : contResp step (r1 i) = true
        · have hcf2 : contResp step (r2 i) = true := by rw [← h0]; exact hcf
          rw [pollEngine_cont step r1 i fuel hcf, pollEngine_cont step r2 i fuel hcf2]
          have harith : i + 1 + (j0 - 1) = i + j0 := by omega
          have hc1' : contResp step (r1 (i + 1 + (j0 - 1))) = true := by
            rw [harith]; exact hc1
          have hc2' : contResp step (r2 (i + 1 + (j0 - 1))) = true := by
            rw [harith]; exact hc2
          have hrest : ∀ j, j < fuel → j ≠ j0 - 1 → r1 (i + 1 + j) = r2 (i + 1 + j) := by
            intro j hj hne
            have := h (j + 1) (by omega) (by omega)
            have harith2 : i + (j + 1) = i + 1 + j := by omega
            rwa [harith2] at this
          rw [ih (i + 1) (j0 - 1) hc1' hc2' hrest]
        · cases hr : r1 i with
          | none => exact absurd (by rw [hr]; rfl) hcf
          | some d =>
              have hr2 : r2 i = some d := by rw [← h0]; exact hr
              cases hs : step d with
              | found u =>
                  rw [pollEngine_found step r1 i fuel d u hr hs,
                    pollEngine_found step r2 i fuel d u hr2 hs]
              | retNull =>
                  rw [pollEngine_retNull step r1 i fuel d hr hs,
                    pollEngine_retNull step r2 i fuel d hr2 hs]
              | next => exact absurd (by rw [hr]; simp [contResp, hs]) hcf

theorem makeApiCallAsync_first (responses : Nat → Option Json)
    (download : Json → Option String) (i : Nat) (hi : i < 60)
    (hrun : ∀ j, j < i → contResp makeStep (responses j) = true)
    (d : Json) (hd : responses i = some d) :
    (makeStep d = StepR.retNull → makeApiCallAsync responses download = none) ∧
    (∀ u, makeStep d = StepR.found u →
        makeApiCallAsync responses download =
          if jsonTruthy u then download u else none) := by
  obtain ⟨h1, _⟩ := pollEngine_skip makeStep responses i 0 (60 - i)
    (by intro j hj; simpa using hrun j hj)
  have e1 : i + (60 - i) = 60 := by omega
  rw [e1] at h1
  have e2 : 0 + i = i := by omega
  rw [e2] at h1
  have e3 : 60 - i = (60 - i - 1) + 1 := by omega
  rw [e3] at h1
  constructor
  · intro hs
    rw [pollEngine_retNull makeStep responses i (60 - i - 1) d hd hs] at h1
    simp only at h1
    simp [makeApiCallAsync, makePoll, finishImage, h1]
  · intro u hs
    rw [pollEngine_found makeStep responses i (60 - i - 1) d u hd hs] at h1
    simp only at h1
    simp [makeApiCallAsync, makePoll, finishImage, h1]

/-- URL choice exactly as claim C1 words it, for comparison with the
code: the first applicable of the speculative lookups
`result.image_url`, then `result.urls[0]`, then top-level `image_url`
(`none` when none is present). -/
def claimC1Choice (fs : Dict) : Option Json :=
  match lookupKey fs "result" with
  | some (Json.obj rf) =>
      match lookupKey rf "image_url" with
      | some u => some u
      | none =>
          match lookupKey rf "urls" with
          | some (Json.arr (u :: _)) => some u
          | _ => lookupKey fs "image_url"
  | _ => lookupKey fs "image_url"

/-- C1 counterexample: one polled response with status COMPLETED whose
`result` field is the number 5 and which carries a top-level `image_url`
"u1".  The claim prescribes the top-level lookup: the call should return
the downloaded path of "u1" (the download succeeds).  The code instead
raises `TypeError` inside `"image_url" in status_data["result"]`, the
loop's `except` swallows it, every later GET raises, and the call
returns None. -/
theorem make_api_call_claim_counterexample :
    statusIs (Json.obj [("status", Json.str "COMPLETED"), ("result", Json.num 5),
      ("image_url", Json.str "u1")]) "COMPLETED" = true ∧
    claimC1Choice [("status", Json.str "COMPLETED"), ("result", Json.num 5),
      ("image_url", Json.str "u1")] = some (Json.str "u1") ∧
    (fun u => match u with
      | Json.str s => some (String.append "file:" s)
      | _ => none : Json → Option String) (Json.str "u1") = some "file:u1" ∧
    makeApiCallAsync
      (fun i => if i = 0 then
          some (Json.obj [("status", Json.str "COMPLETED"), ("result", Json.num 5),
            ("image_url", Json.str "u1")])
        else none)
      (fun u => match u with
        | Json.str s => some (String.append "file:" s)
        | _ => none) = none := by
  refine ⟨rfl, rfl, rfl, rfl⟩

/-- C1 amended: in the asynchronous branch, a downloaded path is
returned only if some polled response within the 60 attempts has status
COMPLETED; the loop stops at the first deciding response: FAILED returns
None immediately; a COMPLETED response chooses the URL by the first
applicable of `result.image_url`, `result.urls[0]`, top-level
`image_url`, downloading it when truthy and returning None when it is
falsy or none is present; a COMPLETED response whose speculative
extraction raises (for example a non-container `result`) is treated
exactly like a polling error and the loop continues; any other status
continues; exhausting the ceiling returns None. -/
theorem make_api_call_async_spec (responses : Nat → Option Json)
    (download : Json → Option String) :
    (∀ p, makeApiCallAsync responses download = some p →
      ∃ i, i < 60 ∧ ∃ fs, responses i = some (Json.obj fs) ∧
        lookupKey fs "status" = some (Json.str "COMPLETED")) ∧
    (∀ i fs, i < 60 → (∀ j, j < i → contResp makeStep (responses j) = true) →
      responses i = some (Json.obj fs) →
      lookupKey fs "status" = some (Json.str "FAILED") →
      makeApiCallAsync responses download = none) ∧
    (∀ i fs rf u, i < 60 → (∀ j, j < i → contResp makeStep (responses j) = true) →
      responses i = some (Json.obj fs) →
      lookupKey fs "status" = some (Json.str "COMPLETED") →
      lookupKey fs "result" = some (Json.obj rf) →
      lookupKey rf "image_url" = some u →
      makeApiCallAsync responses download = if jsonTruthy u then download u else none) ∧
    (∀ i fs rf u us, i < 60 → (∀ j, j < i → contResp makeStep (responses j) = true) →
      responses i = some (Json.obj fs) →
      lookupKey fs "status" = some (Json.str "COMPLETED") →
      lookupKey fs "result" = some (Json.obj rf) →
      lookupKey rf "image_url" = none →
      lookupKey rf "urls" = some (Json.arr (u :: us)) →
      makeApiCallAsync responses download = if jsonTruthy u then download u else none) ∧
    (∀ i fs u, i < 60 → (∀ j, j < i → contResp makeStep (responses j) = true) →
      responses i = some (Json.obj fs) →
      lookupKey fs "status" = some (Json.str "COMPLETED") →
      lookupKey fs "result" = none →
      lookupKey fs "image_url" = some u →
      makeApiCallAsync responses download = if jsonTruthy u then download u else none) ∧
    (∀ i fs rf u, i < 60 → (∀ j, j < i → contResp makeStep (responses j) = true) →
      responses i = some (Json.obj fs) →
      lookupKey fs "status" = some (Json.str "COMPLETED") →
      lookupKey fs "result" = some (Json.obj rf) →
      lookupKey rf "image_url" = none →
      lookupKey rf "urls" = none →
      lookupKey fs "image_url" = some u →
      makeApiCallAsync responses download = if jsonTruthy u then download u else none) ∧
    (∀ i fs, i < 60 → (∀ j, j < i → contResp makeStep (responses j) = true) →
      responses i = some (Json.obj fs) →
      lookupKey fs "status" = some (Json.str "COMPLETED") →
      lookupKey fs "result" = none →
      lookupKey fs "image_url" = none →
      makeApiCallAsync responses download = none) ∧
    (∀ i fs, responses i = some (Json.obj fs) →
      lookupKey fs "status" = some (Json.str "COMPLETED") →
      extractUrlMake (Json.obj fs) = Except.error () →
      makeApiCallAsync responses download =
        makeApiCallAsync (fun j => if j = i then none else responses j) download) ∧
    ((∀ j, j < 60 → contResp makeStep (responses j) = true) →
      makeApiCallAsync responses download = none) := by
  refine ⟨?_, ?_, ?_, ?_, ?_, ?_, ?_, ?_, ?_⟩
  · intro p hp
    cases he : (makePoll responses).1 with
    | none =>
        exfalso
        rw [makeApiCallAsync, finishImage.eq_def, he] at hp
        simp at hp
    | some u =>
        obtain ⟨j, hj, d, hd, hs⟩ := pollEngine_found_inv makeStep responses 60 0 u he
        obtain ⟨fs, rfl, hstatus⟩ := makeStep_found_imp d u hs
        exact ⟨j, by omega, fs, by simpa using hd, hstatus⟩
  · intro i fs hi hrun hd hstatus
    exact (makeApiCallAsync_first responses download i hi hrun _ hd).1
      (makeStep_failed fs hstatus)
  · intro i fs rf u hi hrun hd hstatus hres hiu
    refine (makeApiCallAsync_first responses download i hi hrun _ hd).2 u ?_
    rw [makeStep_completed fs hstatus, extractUrlMake_result_image fs rf u hres hiu]
  · intro i fs rf u us hi hrun hd hstatus hres hiu hurls
    refine (makeApiCallAsync_first responses download i hi hrun _ hd).2 u ?_
    rw [makeStep_completed fs hstatus,
      extractUrlMake_result_urls fs rf u us hres hiu hurls]
  · intro i fs u hi hrun hd hstatus hres htop
    refine (makeApiCallAsync_first responses download i hi hrun _ hd).2 u ?_
    rw [makeStep_completed fs hstatus, extractUrlMake_top_image fs u hres htop]
  · intro i fs rf u hi hrun hd hstatus hres hiu hurls htop
    refine (makeApiCallAsync_first responses download i hi hrun _ hd).2 u ?_
    rw [makeStep_completed fs hstatus,
      extractUrlMake_result_neither_top fs rf u hres hiu hurls htop]
  · intro i fs hi hrun hd hstatus hres htop
    refine (makeApiCallAsync_first responses download i hi hrun _ hd).1 ?_
    rw [makeStep_completed fs hstatus, extractUrlMake_none_found fs hres htop]
  · intro i fs hd hstatus hext
    have hnext : makeStep (Json.obj fs) = StepR.next := by
      rw [makeStep_completed fs hstatus, hext]
    have hc1 : contResp makeStep (responses (0 + i)) = true := by
      rw [Nat.zero_add, hd]
      simp [contResp, hnext]
    have hc2 : contResp makeStep
        ((fun j => if j = i then none else responses j) (0 + i)) = true := by
      rw [Nat.zero_add]
      simp [contResp]
    have hcongr := pollEngine_congr_one makeStep responses
      (fun j => if j = i then none else responses j) 60 0 i hc1 hc2
      (by
        intro j hj hne
        rw [Nat.zero_add]
        simp [hne])
    unfold makeApiCallAsync makePoll
    rw [hcongr]
  · intro h
    have ht := pollEngine_timeout makeStep responses 0 60 (by
      intro j hj
      rw [Nat.zero_add]
      exact h j hj)
    unfold makeApiCallAsync makePoll finishImage
    rw [ht]

/-- C1 witness: the `result.image_url` conjunct at a concrete run whose
single COMPLETED response carries `result.image_url = "u"`. -/
theorem make_api_call_async_spec_witness :
    makeApiCallAsync
      (fun i => if i = 0 then
          some (Json.obj [("status", Json.str "COMPLETED"),
            ("result", Json.obj [("image_url", Json.str "u")])])
        else none)
      (fun u => match u with
        | Json.str s => some (String.append "file:" s)
        | _ => none) = some "file:u" := by
  have h := (make_api_call_async_spec
      (fun i => if i = 0 then
          some (Json.obj [("status", Json.str "COMPLETED"),
            ("result", Json.obj [("image_url", Json.str "u")])])
        else none)
      (fun u => match u with
        | Json.str s => some (String.append "file:" s)
        | _ => none)).2.2.1
      0 [("status", Json.str "COMPLETED"),
        ("result", Json.obj [("image_url", Json.str "u")])]
      [("image_url", Json.str "u")] (Json.str "u")
      (by omega) (by intro j hj; omega) rfl rfl rfl rfl
  exact h.trans rfl

/-- C6 witness: the normalization fact at the zero rotation. -/
theorem sun_export_normalized_witness :
    Real.sqrt ((getSunData 0 0 0).directionX ^ 2 + (getSunData 0 0 0).directionY ^ 2 +
      (getSunData 0 0 0).directionZ ^ 2) = 1 :=
  (sun_export_normalized 0 0 0).2.2.2.2.2

/-- C8 witness: the default keys survive a failed request. -/
theorem get_scene_parameters_default_keys_witness :
    (lookupKey (getSceneParameters none (fun _ => none)) "camera_angle").isSome = true :=
  (get_scene_parameters_default_keys none (fun _ => none)).1

/-- C10 witness: a concrete extensionless path is exported with the
extension. -/
theorem export_path_always_json_witness :
    pyEndsWith (pyLower (ensureJsonExt "previz_set_data_20251011")) ".json" = true :=
  (export_path_always_json "previz_set_data_20251011").1

/-- C4 amended-theorem witness at concrete paths. -/
theorem temp_files_persist_witness :
    FileOp.delete "/tmp/previz_bg_7.exr" ∉ backgroundLifecycleOps "/tmp/previz_bg_7.exr" :=
  (temp_files_persist "/tmp/previz_bg_7.exr" "/tmp/previz_bg_7.exr").2.2.1
